import Mathlib

/-!
Shallow embedding of the isp-agent repository (Go) for checking its
natural-language specification.

Modelled source files:
- `pkg/license/license.go` (license validation, `IsExpired`)
- the telemetry package (`Send`, `StartTelemetryLoop`, `sendTelemetry`)
- `cmd/agent/main.go` (startup gate, `collectAndSend` loop body)
- the second `main` variant (startup gate, telemetry wiring, constants)
- `pkg/updater/updater.go` (`CheckForUpdates`, `DownloadAndInstall`)
- the hwid package (`Generate`, `getMACAddress`, `Load`, `Save`, `GetOrCreate`)

External collaborators (Go standard library and the operating system) are
modelled as explicit inputs: HTTP transport results, JSON decode results,
the RFC3339 parser, the clock, the filesystem, and the MD5 digest are
passed in as data or as function parameters, so every repository function
becomes a pure, executable Lean function of its code plus its environment.
-/

namespace ISPAgent

/-! ## Telemetry data model (telemetry package) -/

/-- Telemetry snapshot, from the telemetry package's `TelemetryData` struct.
Go `int`/`int64` fields are modelled as `Int`, `float64` fields as `Rat`
(no floating-point arithmetic is performed on them by the modelled code;
they are only constructed, zeroed, and passed through). -/
structure TelemetryData where
  ISPID : Int
  CacheHits : Int
  CacheMisses : Int
  BandwidthSaved : Int
  TotalRequests : Int
  CacheSizeUsed : Int
  CPUUsage : Rat
  MemoryUsage : Rat
deriving DecidableEq, Repr

/-- Go zero value `&TelemetryData{}`: every field is zero. -/
def TelemetryData.zero : TelemetryData :=
  { ISPID := 0, CacheHits := 0, CacheMisses := 0, BandwidthSaved := 0,
    TotalRequests := 0, CacheSizeUsed := 0, CPUUsage := 0, MemoryUsage := 0 }

/-- Observable events of one telemetry tick: a send attempt to the control
plane carrying its payload and the transport outcome, or a sleep of the
given number of seconds. -/
inductive TelEv where
  | send (d : TelemetryData) (ok : Bool)
  | sleep (secs : Nat)
deriving DecidableEq, Repr

/-- Payload actually handed to `Send` by `sendTelemetry`: the collected
snapshot if collection succeeded, otherwise the Go zero value; in both
cases `data.ISPID = ispID` is assigned before sending
(`data.ISPID = ispID` in the Go source). -/
def payloadOf (ispID : Int) (collected : Option TelemetryData) : TelemetryData :=
  let d := collected.getD TelemetryData.zero
  { d with ISPID := ispID }

/-- The telemetry package's `sendTelemetry`, as the list of events of one
tick. `collected` is the result of `collectFunc()` (`none` = error).
`ok1` is the transport outcome of the first `Send`, `ok2` of the retry.
The Go code substitutes the zero snapshot on collection failure, sets
`ISPID`, sends once, and on failure sleeps 5 seconds and sends the same
snapshot exactly once more, ignoring the retry's result. -/
def sendTelemetry (ispID : Int) (collected : Option TelemetryData)
    (ok1 ok2 : Bool) : List TelEv :=
  let d := payloadOf ispID collected
  if ok1 then [TelEv.send d true]
  else [TelEv.send d false, TelEv.sleep 5, TelEv.send d ok2]

/-- The telemetry package's `StartTelemetryLoop`: one `sendTelemetry` call
per tick (the immediate initial send is the first list entry). Each tick
is described by that tick's collection result and its two transport
outcomes; the Go loop body carries no state from one tick to the next. -/
def startTelemetryLoop (ispID : Int)
    (ticks : List (Option TelemetryData × Bool × Bool)) : List (List TelEv) :=
  ticks.map fun t => sendTelemetry ispID t.1 t.2.1 t.2.2

/-- Telemetry send attempts appearing in a tick's event list. -/
def sendsOf (tr : List TelEv) : List TelemetryData :=
  tr.filterMap fun e =>
    match e with
    | TelEv.send d _ => some d
    | TelEv.sleep _ => none

/-! ## Stats provider interface (pkg/nginx, external collaborator) -/

/-- The `CacheStats` struct of pkg/nginx. -/
structure CacheStats where
  Hits : Int
  Misses : Int
  BytesServed : Int
  CacheSizeUsed : Int
  TotalRequests : Int
deriving DecidableEq, Repr

/-- The `SystemStats` struct of pkg/nginx. -/
structure SystemStats where
  CPUUsage : Rat
  MemoryUsage : Rat
deriving DecidableEq, Repr

/-- Go zero value `&SystemStats{}`. -/
def SystemStats.zero : SystemStats := { CPUUsage := 0, MemoryUsage := 0 }

/-- Observable events of one `collectAndSend` call in cmd/agent/main.go:
the primary telemetry send with its outcome, and best-effort per-domain
site reports. -/
inductive AgentEv where
  | send (d : TelemetryData) (ok : Bool)
  | site (domain : String) (hits : Int)
deriving DecidableEq, Repr

/-- The `collectAndSend` loop body of cmd/agent/main.go, as the list of
events of one tick. `cacheRes` is the result of `nginx.GetCacheStats`
(`none` = error: the Go code logs and returns immediately, sending
nothing), `sysRes` of `nginx.GetSystemStats` (`none` = error: the Go code
substitutes `&nginx.SystemStats{}`), `sendOk` the outcome of
`telemetry.Send` (on failure the Go code logs and returns before the
domain reports), and `domains` the result of `nginx.GetTopDomains`. -/
def collectAndSend (ispID : Int) (cacheRes : Option CacheStats)
    (sysRes : Option SystemStats) (sendOk : Bool)
    (domains : Option (List (String × Int))) : List AgentEv :=
  match cacheRes with
  | none => []
  | some cs =>
    let ss := sysRes.getD SystemStats.zero
    let avgFileSize : Int := 2
    let bandwidthSaved := cs.Hits * avgFileSize
    let d : TelemetryData :=
      { ISPID := ispID, CacheHits := cs.Hits, CacheMisses := cs.Misses,
        BandwidthSaved := bandwidthSaved, TotalRequests := cs.TotalRequests,
        CacheSizeUsed := cs.CacheSizeUsed, CPUUsage := ss.CPUUsage,
        MemoryUsage := ss.MemoryUsage }
    if sendOk then
      AgentEv.send d true ::
        (match domains with
         | some ds => ds.map fun p => AgentEv.site p.1 p.2
         | none => [])
    else [AgentEv.send d false]

/-! ## License client (pkg/license/license.go) -/

/-- The `LicenseInfo` struct. -/
structure LicenseInfo where
  LicenseKey : String
  ISPID : Int
  ExpiresAt : String
  Modules : List String
  Status : String
deriving DecidableEq, Repr

/-- The license package's `IsExpired`. `parse` stands for Go's
`time.Parse(time.RFC3339, ·)` (`none` = parse error), `now` for
`time.Now()`, both on an integer timeline. The Go code returns `true` on
a parse error, else `time.Now().After(expiry)`, i.e. `expiry < now`. -/
def IsExpired (parse : String → Option Int) (now : Int) (expiresAt : String) : Bool :=
  match parse expiresAt with
  | none => true
  | some t => decide (t < now)

/-! ## Startup gates of the two main programs -/

/-- Outcome of process startup: the process exits (via `log.Fatal`, a
non-zero exit) before any loop starts, or it reaches the point where the
telemetry and update loops run. -/
inductive StartupOutcome where
  | exited
  | loopsStarted
deriving DecidableEq, Repr

/-- Startup gate of cmd/agent/main.go. `validateRes` is the result of
`license.Validate` (`none` = error). The Go code calls `log.Fatalf` when
validation fails or when `license.IsExpired(licenseInfo.ExpiresAt)` holds;
otherwise it proceeds to the telemetry loop. It never inspects
`licenseInfo.Status`. -/
def mainStartup (parse : String → Option Int) (now : Int)
    (validateRes : Option LicenseInfo) : StartupOutcome :=
  match validateRes with
  | none => StartupOutcome.exited
  | some info =>
    if IsExpired parse now info.ExpiresAt then StartupOutcome.exited
    else StartupOutcome.loopsStarted

/-- Startup gate of the second main variant. The Go code calls
`log.Fatal` when validation fails or when `licenseInfo.Status != "active"`;
otherwise it starts the update and telemetry loops. It never calls
`license.IsExpired` on the validated record. -/
def part001Startup (validateRes : Option LicenseInfo) : StartupOutcome :=
  match validateRes with
  | none => StartupOutcome.exited
  | some info =>
    if info.Status ≠ "active" then StartupOutcome.exited
    else StartupOutcome.loopsStarted

/-! ## Endpoint URLs -/

/-- URL built by the telemetry package's `Send`:
`fmt.Sprintf("%s/api/telemetry", saasURL)`. -/
def telemetryURL (saasURL : String) : String := saasURL ++ "/api/telemetry"

/-- URL built by `license.Validate`:
`fmt.Sprintf("%s/api/licenses/validate", saasURL)`. -/
def validateURL (saasURL : String) : String := saasURL ++ "/api/licenses/validate"

/-- The `SAAS_URL` constant of the second main variant. -/
def SAAS_URL : String := "http://64.23.151.140:8080"

/-- URL the second main variant's telemetry loop posts to: that main
invokes `telemetry.StartTelemetryLoop(licenseKey, ...)`, passing the
license key in the `saasURL` parameter position, so every snapshot goes
to `licenseKey ++ "/api/telemetry"`. -/
def part001TelemetryPostURL (licenseKey : String) : String :=
  telemetryURL licenseKey

/-! ## Update manager (pkg/updater/updater.go) -/

/-- The `VersionInfo` struct (`created_at` modelled as its wire string). -/
structure VersionInfo where
  ID : Int
  Version : String
  DownloadURL : String
  Checksum : String
  ReleaseNotes : String
  IsStable : Bool
  CreatedAt : String
deriving DecidableEq, Repr

/-- The updater's `APIResponse` struct. -/
structure APIResponse where
  Success : Bool
  Data : VersionInfo
  Error : String
deriving DecidableEq, Repr

/-- `updater.CurrentVersion`. -/
def CurrentVersion : String := "1.0.0"

/-- `updater.CheckForUpdates`. The network and JSON layers are an input:
`none` = transport failure of `http.Get`, `some none` = body that fails to
decode, `some (some r)` = decoded response. On success the Go code
returns the descriptor together with
`needsUpdate := apiResp.Data.Version != CurrentVersion`. -/
def CheckForUpdates (fetched : Option (Option APIResponse)) :
    Except String (VersionInfo × Bool) :=
  match fetched with
  | none => Except.error "failed to check for updates"
  | some none => Except.error "failed to parse response"
  | some (some r) =>
    if r.Success then
      Except.ok (r.Data, decide (r.Data.Version ≠ CurrentVersion))
    else Except.error ("API error: " ++ r.Error)

/-- Filesystem contents: each path holds a byte list or no file. -/
def FsT : Type := String → Option (List Nat)

/-- Point update of a filesystem. -/
def fsSet (fs : FsT) (p : String) (v : Option (List Nat)) : FsT :=
  fun q => if q = p then v else fs q

/-- `os.Rename(src, dst)` with an environment-chosen outcome `ok`:
on success the contents move from `src` to `dst`; a rename of a missing
source also fails. `none` = the rename returned an error, filesystem
unchanged. -/
def fsRename (ok : Bool) (fs : FsT) (src dst : String) : Option FsT :=
  if ok then
    match fs src with
    | none => none
    | some c => some (fsSet (fsSet fs dst (some c)) src none)
  else none

/-- Environment of one `DownloadAndInstall` call: the outcome of each
fallible step (`os.Executable`, `http.Get`, `os.Create`, `io.Copy`,
`os.Chmod`, and the three renames), the executable path, the downloaded
bytes, and the bytes present in the temp file when `io.Copy` fails
mid-write. -/
structure UpdEnv where
  exeOk : Bool
  exePath : String
  httpOk : Bool
  body : List Nat
  createOk : Bool
  copyOk : Bool
  halfBody : List Nat
  chmodOk : Bool
  backupRenameOk : Bool
  installRenameOk : Bool
  rollbackRenameOk : Bool

/-- `updater.DownloadAndInstall`, step for step: resolve the executable
path; download; create and write `exePath + ".new"`; chmod it; rename the
executable to `exePath + ".backup"`; rename the temp file into place; on
failure of that final rename, attempt `os.Rename(backupFile, exePath)`
with its error ignored, and return the install error. The final
`systemctl restart` only warns on failure and touches no file. Returns
the call's result and the resulting filesystem. -/
def DownloadAndInstall (o : UpdEnv) (fs : FsT) : Except String Unit × FsT :=
  if !o.exeOk then (Except.error "failed to get executable path", fs)
  else
    let exePath := o.exePath
    let tempFile := exePath ++ ".new"
    if !o.httpOk then (Except.error "failed to download", fs)
    else if !o.createOk then (Except.error "failed to create temp file", fs)
    else
      let fs1 := fsSet fs tempFile (some [])
      if !o.copyOk then
        (Except.error "failed to write file", fsSet fs1 tempFile (some o.halfBody))
      else
        let fs2 := fsSet fs1 tempFile (some o.body)
        if !o.chmodOk then (Except.error "failed to set permissions", fs2)
        else
          let backupFile := exePath ++ ".backup"
          match fsRename o.backupRenameOk fs2 exePath backupFile with
          | none => (Except.error "failed to backup old version", fs2)
          | some fs3 =>
            match fsRename o.installRenameOk fs3 tempFile exePath with
            | some fs4 => (Except.ok (), fs4)
            | none =>
              match fsRename o.rollbackRenameOk fs3 backupFile exePath with
              | some fs5 => (Except.error "failed to install new version", fs5)
              | none => (Except.error "failed to install new version", fs3)

/-! ## Identity manager (hwid package) -/

/-- Whitespace test of Go's `strings.TrimSpace`/`bytes.TrimSpace`
(`unicode.IsSpace` over the relevant range: space, tab, newline, vertical
tab, form feed, carriage return, next line, no-break space). -/
def isSpaceChar (c : Char) : Bool :=
  c == ' ' || c == '\t' || c == '\n' || c == Char.ofNat 11 ||
  c == Char.ofNat 12 || c == '\r' || c == Char.ofNat 133 || c == Char.ofNat 160

/-- Go's `strings.TrimSpace`: drop whitespace from both ends. -/
def trimSpace (s : String) : String :=
  let l := s.toList.dropWhile isSpaceChar
  String.mk ((l.reverse.dropWhile isSpaceChar).reverse)

/-- Host environment read by the hwid package: contents of
`/etc/machine-id` and `/var/lib/dbus/machine-id` (`none` = read error),
the hostname reported by `os.Hostname` (the empty string when that call
fails, since its error is discarded), the output of the `ip link` shell
pipeline (`none` = the command failed), and whether writing the cache
file succeeds. -/
structure HwEnv where
  etcMachineId : Option String
  dbusMachineId : Option String
  hostname : String
  ipOutput : Option String
  saveOk : Bool

/-- Machine identifier resolved by `Generate`: `readFile` (which trims)
on `/etc/machine-id`, then on `/var/lib/dbus/machine-id`, finally the
hostname. -/
def machineIdOf (env : HwEnv) : String :=
  match env.etcMachineId with
  | some s => trimSpace s
  | none =>
    match env.dbusMachineId with
    | some s => trimSpace s
    | none => env.hostname

/-- The hwid package's `getMACAddress`: fails (`none`) when the shell
command fails; otherwise trims the output and substitutes the all-zero
placeholder only when the trimmed output is empty. -/
def getMACAddress (ipOutput : Option String) : Option String :=
  match ipOutput with
  | none => none
  | some out =>
    let mac := trimSpace out
    if mac = "" then some "00:00:00:00:00:00" else some mac

/-- MAC value used by `Generate`: on `getMACAddress` error the Go code
sets `mac = "unknown"`. -/
def macOf (env : HwEnv) : String := (getMACAddress env.ipOutput).getD "unknown"

/-- The hwid package's `Generate`: digest of
`fmt.Sprintf("%s-%s", machineID, mac)` formatted as `ISP-%X`. The MD5
digest plus hex formatting is the function parameter `md5hex` (Go's
`crypto/md5` is outside this repository); `Generate` never returns an
error. -/
def Generate (md5hex : String → String) (env : HwEnv) : String :=
  "ISP-" ++ md5hex (machineIdOf env ++ "-" ++ macOf env)

/-- The hwid package's `Load`: read the cache file (`none` = read error,
in particular a missing file) and trim its contents. -/
def LoadHwid (cache : Option String) : Option String := cache.map trimSpace

/-- Result of one `GetOrCreate` call: the returned string, the cache file
afterwards, whether `Generate` ran, and whether `Save` failed (in which
case the Go code still returns the derived value, with the error). -/
structure GOCResult where
  value : String
  newCache : Option String
  derived : Bool
  saveFailed : Bool
deriving DecidableEq, Repr

/-- The hwid package's `GetOrCreate`: return the loaded cached value when
the load succeeds and the (trimmed) value is non-empty; otherwise derive
via `Generate`, attempt to save, and return the derived value even when
saving fails. -/
def GetOrCreate (md5hex : String → String) (env : HwEnv)
    (cache : Option String) : GOCResult :=
  let gen : GOCResult :=
    let g := Generate md5hex env
    if env.saveOk then
      { value := g, newCache := some g, derived := true, saveFailed := false }
    else
      { value := g, newCache := cache, derived := true, saveFailed := true }
  match LoadHwid cache with
  | some h => if h = "" then gen else
      { value := h, newCache := cache, derived := false, saveFailed := false }
  | none => gen

/-! ## Concrete demonstration inputs -/

/-- Concrete stand-in for the RFC3339 parser on the two timestamps used in
the demonstrations: year 2000 parses to instant 0, year 2999 to 1000,
everything else fails to parse. -/
def parseDemo (s : String) : Option Int :=
  if s = "2000-01-01T00:00:00Z" then some 0
  else if s = "2999-01-01T00:00:00Z" then some 1000
  else none

/-- Demonstration clock instant, strictly between the two parsed instants. -/
def nowDemo : Int := 500

/-- Unexpired license whose status is not "active". -/
def infoSuspended : LicenseInfo :=
  { LicenseKey := "KEY-1", ISPID := 7, ExpiresAt := "2999-01-01T00:00:00Z",
    Modules := ["cache"], Status := "suspended" }

/-- Expired license whose status is "active". -/
def infoExpiredActive : LicenseInfo :=
  { LicenseKey := "KEY-2", ISPID := 7, ExpiresAt := "2000-01-01T00:00:00Z",
    Modules := ["cache"], Status := "active" }

/-- Update environment where everything succeeds except the final install
rename and the rollback rename (e.g. the target directory became
unwritable between the backup rename and the install rename). -/
def updEnvDemo : UpdEnv :=
  { exeOk := true, exePath := "/x/agent", httpOk := true, body := [7],
    createOk := true, copyOk := true, halfBody := [], chmodOk := true,
    backupRenameOk := true, installRenameOk := false, rollbackRenameOk := false }

/-- Update environment where only the final install rename fails and the
rollback rename succeeds. -/
def updEnvRollbackDemo : UpdEnv :=
  { exeOk := true, exePath := "/x/agent", httpOk := true, body := [7],
    createOk := true, copyOk := true, halfBody := [], chmodOk := true,
    backupRenameOk := true, installRenameOk := false, rollbackRenameOk := true }

/-- Filesystem holding only the running executable. -/
def fsDemo : FsT :=
  fun q => if q = "/x/agent" then some [1, 2] else none

/-- Concrete stand-in for the MD5-and-hex-format digest. -/
def md5hexDemo : String → String := fun _ => "AB12"

/-- Demonstration host environment with every source available. -/
def hwEnvDemo : HwEnv :=
  { etcMachineId := some "machine-7", dbusMachineId := none,
    hostname := "host7", ipOutput := some "aa:bb:cc:dd:ee:ff", saveOk := true }

/-- Demonstration host environment whose `ip link` command fails. -/
def hwEnvNoIpDemo : HwEnv :=
  { etcMachineId := some "machine-7", dbusMachineId := none,
    hostname := "host7", ipOutput := none, saveOk := true }

/-- Demonstration successful version response carrying an older remote
version string than the running build's. -/
def apiRespDemo : APIResponse :=
  { Success := true,
    Data := { ID := 1, Version := "0.9.9", DownloadURL := "u", Checksum := "c",
              ReleaseNotes := "n", IsStable := true, CreatedAt := "t" },
    Error := "" }

/-- Update environment where only the chmod step fails. -/
def chmodFailEnv : UpdEnv :=
  { exeOk := true, exePath := "/x/agent", httpOk := true, body := [7],
    createOk := true, copyOk := true, halfBody := [], chmodOk := false,
    backupRenameOk := true, installRenameOk := true, rollbackRenameOk := true }

/-- Demonstration host environment whose `ip link` command succeeds but
prints only whitespace. -/
def hwEnvBlankIpDemo : HwEnv :=
  { etcMachineId := some "machine-7", dbusMachineId := none,
    hostname := "host7", ipOutput := some "  ", saveOk := true }

/-! Helper lemmas about strings and the filesystem model. -/

theorem strLenAppend (s t : String) : (s ++ t).length = s.length + t.length :=
  String.length_append s t

theorem pathNeTemp (p : String) : p ≠ p ++ ".new" := by
  intro h
  have hl := congrArg String.length h
  rw [strLenAppend] at hl
  have h4 : (".new" : String).length = 4 := rfl
  omega

theorem pathNeBackup (p : String) : p ≠ p ++ ".backup" := by
  intro h
  have hl := congrArg String.length h
  rw [strLenAppend] at hl
  have h7 : (".backup" : String).length = 7 := rfl
  omega

theorem tempNeBackup (p : String) : p ++ ".new" ≠ p ++ ".backup" := by
  intro h
  have hl := congrArg String.length h
  rw [strLenAppend, strLenAppend] at hl
  have h4 : (".new" : String).length = 4 := rfl
  have h7 : (".backup" : String).length = 7 := rfl
  omega

theorem generate_ne_empty (f : String → String) (e : HwEnv) : Generate f e ≠ "" := by
  intro h
  unfold Generate at h
  have hl := congrArg String.length h
  rw [strLenAppend] at hl
  have h4 : ("ISP-" : String).length = 4 := rfl
  have h0 : ("" : String).length = 0 := rfl
  omega

/-! Theorems settling the claims. -/

/-- C1: the claim says a license with status ≠ "active" or a past expiry
makes the process exit before any loop starts. The code violates it in
both main programs: cmd/agent/main.go never checks the status (an
unexpired "suspended" license reaches the loops), and the second main
variant never checks the expiry (an expired "active" license reaches the
loops). -/
theorem license_gate_not_enforced :
    (infoSuspended.Status ≠ "active" ∧
      mainStartup parseDemo nowDemo (some infoSuspended) =
        StartupOutcome.loopsStarted) ∧
    (IsExpired parseDemo nowDemo infoExpiredActive.ExpiresAt = true ∧
      part001Startup (some infoExpiredActive) = StartupOutcome.loopsStarted) := by
  decide

/-- C3: the claim says a failed stats collection still yields exactly one
send with an all-zero snapshot. cmd/agent/main.go's `collectAndSend`
instead returns with no send at all when `GetCacheStats` fails (first
conjunct), while the telemetry package's `sendTelemetry` does send on
collection failure but sets the `ISPID` field of the otherwise-zero
snapshot to the configured id (second conjunct, id 7). -/
theorem collect_failure_divergence :
    collectAndSend 7 none (some SystemStats.zero) true (some [("a.com", 3)]) = [] ∧
    sendTelemetry 7 none true true =
      [TelEv.send { TelemetryData.zero with ISPID := 7 } true] := by
  decide

/-- C4: the claim says telemetry is posted under the same base URL used
for license validation. The second main variant passes the license key as
the `saasURL` argument of `StartTelemetryLoop`, so snapshots are posted to
`licenseKey ++ "/api/telemetry"` while license validation used `SAAS_URL`. -/
theorem part001_telemetry_posts_to_license_key :
    part001TelemetryPostURL "LIC-123" = "LIC-123/api/telemetry" ∧
    telemetryURL SAAS_URL = "http://64.23.151.140:8080/api/telemetry" ∧
    part001TelemetryPostURL "LIC-123" ≠ telemetryURL SAAS_URL ∧
    validateURL SAAS_URL = "http://64.23.151.140:8080/api/licenses/validate" := by
  decide

/-- C2 counterexample: when the final install rename fails and the
ignored rollback rename also fails (e.g. the directory became
unwritable), `DownloadAndInstall` returns its error with no file at the
original executable path, so the executable is not byte-identical to the
one before the call. -/
theorem install_rollback_double_failure :
    fsDemo "/x/agent" = some [1, 2] ∧
    (DownloadAndInstall updEnvDemo fsDemo).2 "/x/agent" = none ∧
    (DownloadAndInstall updEnvDemo fsDemo).1 =
      Except.error "failed to install new version" :=
  ⟨rfl, rfl, rfl⟩

/-- C8 counterexample: with a cached file whose contents are "X \n"
(non-empty), `GetOrCreate` returns the trimmed string "X", not the stored
value unchanged — the stored value is normalized by the trim in `Load`. -/
theorem getOrCreate_normalizes_cached_value :
    (GetOrCreate md5hexDemo hwEnvDemo (some "X \n")).value = "X" ∧
    ("X" : String) ≠ "X \n" ∧
    (GetOrCreate md5hexDemo hwEnvDemo (some "X \n")).derived = false := by
  decide

/-- C9 counterexample: when the `ip link` shell command fails outright,
`Generate` substitutes the literal string "unknown" as the second digest
input, not the all-zero placeholder address. -/
theorem mac_unknown_on_command_failure :
    macOf hwEnvNoIpDemo = "unknown" ∧
    Generate md5hexDemo hwEnvNoIpDemo =
      "ISP-" ++ md5hexDemo ("machine-7" ++ "-" ++ "unknown") ∧
    ("unknown" : String) ≠ "00:00:00:00:00:00" := by
  decide

/-- C2 (amended): a failure of any step before the backup rename leaves
the file at the original executable path unchanged; and when the final
install rename fails, the attempted rollback rename — provided it itself
succeeds, its error being ignored by the code — restores the original
bytes at the original path and the call returns the install error. -/
theorem downloadAndInstall_failure_semantics (o : UpdEnv) (fs : FsT) :
    ((o.exeOk = false ∨ o.httpOk = false ∨ o.createOk = false ∨
        o.copyOk = false ∨ o.chmodOk = false) →
      (DownloadAndInstall o fs).2 o.exePath = fs o.exePath) ∧
    (∀ orig, fs o.exePath = some orig → o.exeOk = true → o.httpOk = true →
      o.createOk = true → o.copyOk = true → o.chmodOk = true →
      o.backupRenameOk = true → o.installRenameOk = false →
      o.rollbackRenameOk = true →
      (DownloadAndInstall o fs).2 o.exePath = some orig ∧
      (DownloadAndInstall o fs).1 =
        Except.error "failed to install new version") := by
  constructor
  · intro h
    cases hexe : o.exeOk with
    | false => simp [DownloadAndInstall, hexe]
    | true =>
      cases hhttp : o.httpOk with
      | false => simp [DownloadAndInstall, hexe, hhttp]
      | true =>
        cases hcr : o.createOk with
        | false => simp [DownloadAndInstall, hexe, hhttp, hcr]
        | true =>
          cases hcp : o.copyOk with
          | false =>
            simp [DownloadAndInstall, hexe, hhttp, hcr, hcp, fsSet,
              pathNeTemp o.exePath]
          | true =>
            cases hch : o.chmodOk with
            | false =>
              simp [DownloadAndInstall, hexe, hhttp, hcr, hcp, hch, fsSet,
                pathNeTemp o.exePath]
            | true => simp_all
  · intro orig horig hexe hhttp hcr hcp hch hbk hinst hroll
    constructor <;>
      simp [DownloadAndInstall, hexe, hhttp, hcr, hcp, hch, hbk, hinst, hroll,
        fsRename, fsSet, pathNeTemp o.exePath, pathNeBackup o.exePath,
        Ne.symm (pathNeTemp o.exePath), Ne.symm (pathNeBackup o.exePath),
        tempNeBackup o.exePath, Ne.symm (tempNeBackup o.exePath), horig]

/-- Witness for the C2 theorem: the early-failure half at a chmod failure,
and the rollback half at an install-rename failure whose rollback succeeds. -/
theorem downloadAndInstall_failure_semantics_witness :
    (DownloadAndInstall chmodFailEnv fsDemo).2 "/x/agent" = fsDemo "/x/agent" ∧
    ((DownloadAndInstall updEnvRollbackDemo fsDemo).2 "/x/agent" = some [1, 2] ∧
      (DownloadAndInstall updEnvRollbackDemo fsDemo).1 =
        Except.error "failed to install new version") :=
  ⟨(downloadAndInstall_failure_semantics chmodFailEnv fsDemo).1
      (Or.inr (Or.inr (Or.inr (Or.inr rfl)))),
    (downloadAndInstall_failure_semantics updEnvRollbackDemo fsDemo).2
      [1, 2] rfl rfl rfl rfl rfl rfl rfl rfl rfl⟩

/-- C5: for every successful `CheckForUpdates` call, `needsUpdate` holds
exactly when the remote version string differs from `CurrentVersion`
under plain string inequality, in either direction. -/
theorem checkForUpdates_exact_inequality (x : Option (Option APIResponse))
    (v : VersionInfo) (b : Bool)
    (h : CheckForUpdates x = Except.ok (v, b)) :
    b = true ↔ v.Version ≠ CurrentVersion := by
  match x with
  | none => simp [CheckForUpdates] at h
  | some none => simp [CheckForUpdates] at h
  | some (some r) =>
    cases hs : r.Success with
    | false => simp [CheckForUpdates, hs] at h
    | true =>
      simp [CheckForUpdates, hs] at h
      rcases h with ⟨hv, hb⟩
      subst hv
      cases b with
      | true =>
        simp only [Bool.not_true, decide_eq_false_iff_not] at hb
        simp [hb]
      | false =>
        simp only [Bool.not_false, decide_eq_true_eq] at hb
        simp [hb]

/-- Witness for C5 at a concrete response whose remote version "0.9.9" is
older than the running "1.0.0": the call succeeds with needsUpdate true. -/
theorem checkForUpdates_exact_inequality_witness :
    (true = true) ↔ apiRespDemo.Data.Version ≠ CurrentVersion :=
  checkForUpdates_exact_inequality (some (some apiRespDemo))
    apiRespDemo.Data true rfl

/-- C6: each telemetry tick performs at least one and at most two send
attempts; a failed first send is followed by a fixed 5-second sleep and
exactly one retry of the very same snapshot; a successful first send is
the only attempt; every attempt of a tick carries that tick's payload;
and the loop handles each tick independently of all earlier ticks, so an
abandoned snapshot is never queued or re-sent later. -/
theorem telemetry_retry_and_independence (ispID : Int)
    (c : Option TelemetryData) (ok1 ok2 : Bool)
    (t : Option TelemetryData × Bool × Bool)
    (ticks : List (Option TelemetryData × Bool × Bool)) :
    (sendsOf (sendTelemetry ispID c ok1 ok2)).length ≤ 2 ∧
    1 ≤ (sendsOf (sendTelemetry ispID c ok1 ok2)).length ∧
    (∀ d ∈ sendsOf (sendTelemetry ispID c ok1 ok2), d = payloadOf ispID c) ∧
    (ok1 = false →
      sendTelemetry ispID c ok1 ok2 =
        [TelEv.send (payloadOf ispID c) false, TelEv.sleep 5,
          TelEv.send (payloadOf ispID c) ok2]) ∧
    (ok1 = true →
      sendTelemetry ispID c ok1 ok2 = [TelEv.send (payloadOf ispID c) true]) ∧
    startTelemetryLoop ispID (t :: ticks) =
      sendTelemetry ispID t.1 t.2.1 t.2.2 :: startTelemetryLoop ispID ticks := by
  cases ok1 <;> simp [sendTelemetry, sendsOf, startTelemetryLoop]

/-- Witness for C6: a doubly-failing tick shows the single retry after a
5-second sleep, and a succeeding tick shows the single attempt. -/
theorem telemetry_retry_and_independence_witness :
    sendTelemetry 3 none false false =
      [TelEv.send (payloadOf 3 none) false, TelEv.sleep 5,
        TelEv.send (payloadOf 3 none) false] ∧
    sendTelemetry 3 none true true = [TelEv.send (payloadOf 3 none) true] :=
  ⟨(telemetry_retry_and_independence 3 none false false (none, true, true)
      []).2.2.2.1 rfl,
    (telemetry_retry_and_independence 3 none true true (none, true, true)
      []).2.2.2.2.1 rfl⟩

/-- C7: identity derivation is deterministic — two environments resolving
to the same host identifier and the same interface address yield the same
`Generate` output, which is the digest of the two inputs prefixed with
the product tag; consequently `GetOrCreate` returns that same string with
a cached file holding a previously derived value and without any cache. -/
theorem generate_deterministic (f : String → String) (e1 e2 : HwEnv)
    (c : String) (hm : machineIdOf e1 = machineIdOf e2)
    (ha : macOf e1 = macOf e2) (hc : trimSpace c = Generate f e1) :
    Generate f e1 = Generate f e2 ∧
    Generate f e1 = "ISP-" ++ f (machineIdOf e1 ++ "-" ++ macOf e1) ∧
    (GetOrCreate f e1 (some c)).value = (GetOrCreate f e1 none).value := by
  have hne : Generate f e1 ≠ "" := generate_ne_empty f e1
  refine ⟨by rw [Generate, Generate, hm, ha], rfl, ?_⟩
  cases hs : e1.saveOk <;>
    simp [GetOrCreate, LoadHwid, hc, hne, hs]

/-- Witness for C7 at a concrete host environment and digest stand-in,
with a cache file holding the previously derived identity. -/
theorem generate_deterministic_witness :
    Generate md5hexDemo hwEnvDemo = Generate md5hexDemo hwEnvDemo ∧
    Generate md5hexDemo hwEnvDemo =
      "ISP-" ++ md5hexDemo (machineIdOf hwEnvDemo ++ "-" ++ macOf hwEnvDemo) ∧
    (GetOrCreate md5hexDemo hwEnvDemo (some "ISP-AB12")).value =
      (GetOrCreate md5hexDemo hwEnvDemo none).value :=
  generate_deterministic md5hexDemo hwEnvDemo hwEnvDemo "ISP-AB12"
    rfl rfl (by decide)

/-- C8 (amended): once a cached file whose trimmed contents are non-empty
exists, every call returns those trimmed contents without deriving and
leaves the cache unchanged; and calling twice in sequence (from any
starting cache state, with saving succeeding and the derived value free
of surrounding whitespace) returns the identical string with no
derivation on the second call. -/
theorem getOrCreate_idempotent_after_cache (f : String → String) (e : HwEnv)
    (cache : Option String) (hs : e.saveOk = true)
    (hf : trimSpace (Generate f e) = Generate f e) :
    (∀ c, cache = some c → trimSpace c ≠ "" →
      (GetOrCreate f e cache).value = trimSpace c ∧
      (GetOrCreate f e cache).derived = false ∧
      (GetOrCreate f e cache).newCache = cache) ∧
    ((GetOrCreate f e ((GetOrCreate f e cache).newCache)).value =
        (GetOrCreate f e cache).value ∧
      (GetOrCreate f e ((GetOrCreate f e cache).newCache)).derived = false) := by
  have hne := generate_ne_empty f e
  constructor
  · rintro c rfl hcne
    simp [GetOrCreate, LoadHwid, hcne]
  · match cache with
    | none => simp [GetOrCreate, LoadHwid, hs, hf, hne]
    | some c =>
      by_cases hcne : trimSpace c = ""
      · simp [GetOrCreate, LoadHwid, hcne, hs, hf, hne]
      · simp [GetOrCreate, LoadHwid, hcne]

/-- Witness for the amended C8 at a concrete cached identity file. -/
theorem getOrCreate_idempotent_after_cache_witness :
    (GetOrCreate md5hexDemo hwEnvDemo (some "ISP-AB12")).value =
      trimSpace "ISP-AB12" ∧
    (GetOrCreate md5hexDemo hwEnvDemo (some "ISP-AB12")).derived = false ∧
    (GetOrCreate md5hexDemo hwEnvDemo (some "ISP-AB12")).newCache =
      some "ISP-AB12" :=
  (getOrCreate_idempotent_after_cache md5hexDemo hwEnvDemo (some "ISP-AB12")
      rfl (by decide)).1 "ISP-AB12" rfl (by decide)

/-- C9 (amended): the all-zero placeholder address is substituted exactly
when the `ip link` command succeeds but its trimmed output is empty; when
the command itself fails, the literal "unknown" is used instead; and a
non-empty trimmed output is used as is. -/
theorem mac_placeholder_cases (e : HwEnv) :
    (∀ out, e.ipOutput = some out → trimSpace out = "" →
      macOf e = "00:00:00:00:00:00") ∧
    (e.ipOutput = none → macOf e = "unknown") ∧
    (∀ out, e.ipOutput = some out → trimSpace out ≠ "" →
      macOf e = trimSpace out) := by
  refine ⟨?_, ?_, ?_⟩
  · rintro out hout hemp
    simp [macOf, getMACAddress, hout, hemp]
  · intro h
    simp [macOf, getMACAddress, h]
  · rintro out hout hne
    simp [macOf, getMACAddress, hout, hne]

/-- Witness for the amended C9 on the three concrete environments:
whitespace-only command output, failing command, and a normal address. -/
theorem mac_placeholder_cases_witness :
    macOf hwEnvBlankIpDemo = "00:00:00:00:00:00" ∧
    macOf hwEnvNoIpDemo = "unknown" ∧
    macOf hwEnvDemo = trimSpace "aa:bb:cc:dd:ee:ff" :=
  ⟨(mac_placeholder_cases hwEnvBlankIpDemo).1 "  " rfl (by decide),
    (mac_placeholder_cases hwEnvNoIpDemo).2.1 rfl,
    (mac_placeholder_cases hwEnvDemo).2.2 "aa:bb:cc:dd:ee:ff" rfl (by decide)⟩

/-- C10: `IsExpired` returns true on every expiry string the wire-format
parser rejects (fail-closed), and on every string it accepts it returns
true exactly when the parsed instant is strictly before the current time. -/
theorem isExpired_fail_closed (parse : String → Option Int) (now : Int)
    (s : String) :
    (parse s = none → IsExpired parse now s = true) ∧
    (∀ t, parse s = some t → (IsExpired parse now s = true ↔ t < now)) := by
  constructor
  · intro h
    simp [IsExpired, h]
  · intro t h
    simp [IsExpired, h]

/-- Witness for C10: an unparseable string is expired, and the year-2000
timestamp is expired exactly because its instant precedes the clock. -/
theorem isExpired_fail_closed_witness :
    IsExpired parseDemo nowDemo "not-a-timestamp" = true ∧
    (IsExpired parseDemo nowDemo "2000-01-01T00:00:00Z" = true ↔
      (0 : Int) < nowDemo) :=
  ⟨(isExpired_fail_closed parseDemo nowDemo "not-a-timestamp").1 (by decide),
    (isExpired_fail_closed parseDemo nowDemo "2000-01-01T00:00:00Z").2 0
      (by decide)⟩

end ISPAgent
